import Mathlib

/-!
Verification of the flashinfer-ai/ci-infra scale-up lambdas.

The repository holds three AWS Lambda functions written in Python:

* `terraform/lambdas/p4d-scale-up/index.py` — launches p4d spot instances
  with an on-demand fallback, consuming SQS batches and reporting partial
  batch failures;
* `terraform/lambdas/cb-scale-up/index.py` — launches instances into an
  active Capacity Block reservation, same SQS batch protocol;
* `terraform/lambdas/cb-manager/index.py` — read-only Capacity Block status
  reporting.

This file shallowly embeds those functions.  Remote AWS calls
(`run_instances`, `describe_capacity_reservations`, `describe_subnets`) are
modelled by passing their result in as data: an `ApiResult` value is either
the successful payload or a `ClientError` carrying an error code, exactly
the two behaviours the Python code distinguishes.  Server-side filters of
the describe calls are modelled as explicit list filters over a raw
inventory.  Python exception control flow becomes `Except PyExc`.
-/

namespace CiInfra

/-- An EC2 tag (`{'Key': ..., 'Value': ...}` in the Python sources). -/
structure Tag where
  key : String
  value : String
deriving DecidableEq, Repr

/-- Result of a remote EC2 API call: either the payload or a
`botocore.exceptions.ClientError` carrying its error code. -/
inductive ApiResult (α : Type) where
  | ok (v : α)
  | clientError (code : String)
deriving DecidableEq, Repr

/-- Python exceptions that drive control flow in the handlers. -/
inductive PyExc where
  | scaleError (msg : String)
  | clientError (code : String)
  | valueError (msg : String)
  | attributeError
deriving DecidableEq, Repr

/-- The JSON object carried in an SQS message body, with the fields the
lambdas read (`body.get('id')`, `body.get('repositoryOwner')`, ...).
`none` models an absent key (Python `None`). -/
structure JobBody where
  id : Option Int := none
  repositoryOwner : Option String := none
  repositoryName : Option String := none
  eventType : Option String := none
  installationId : Option Int := none
deriving DecidableEq, Repr

/-- The body of an SQS record as seen by `parse_sqs_message`:
missing `body` key (raises `KeyError` inside `json.loads(record['body'])`
access), a string that is not valid JSON (raises `json.JSONDecodeError`),
valid JSON that is not an object (`body.get` raises `AttributeError`),
or a JSON object. -/
inductive Body where
  | missing
  | invalidJson (raw : String)
  | nonObject
  | obj (b : JobBody)
deriving DecidableEq, Repr

/-- Python `f"{x}"` rendering of an optional string: `None` prints as
`"None"`. -/
def pyStr : Option String → String
  | none => "None"
  | some s => s

/-- The `job_info` dict produced by `parse_sqs_message`. -/
structure JobInfo where
  workflow_job_id : Option Int := none
  repository : Option String := none
  event_type : Option String := none
  installation_id : Option Int := none
deriving DecidableEq, Repr

/-- `parse_sqs_message` (identical in p4d-scale-up and cb-scale-up):
`json.JSONDecodeError` and `KeyError` are caught and yield the empty dict;
an `AttributeError` from calling `.get` on a non-object is not caught and
propagates. -/
def parse_sqs_message : Body → Except PyExc JobInfo
  | .missing => .ok {}
  | .invalidJson _ => .ok {}
  | .nonObject => .error .attributeError
  | .obj b => .ok
      { workflow_job_id := b.id
        repository := some (pyStr b.repositoryOwner ++ "/" ++ pyStr b.repositoryName)
        event_type := b.eventType
        installation_id := b.installationId }

/-- Python truthiness of an optional string (`None` and `''` are falsy). -/
def strTruthy : Option String → Bool
  | none => false
  | some s => s != ""

/-- Python truthiness of an optional integer (`None` and `0` are falsy). -/
def intTruthy : Option Int → Bool
  | none => false
  | some n => n != 0

/-- Per-request outcome recorded by a handler: an entry of
`results['successful']` (instance id plus the market type for p4d, or the
capacity block id for cb-scale-up) or of `results['failed']` (error text
plus the `retry` flag). -/
inductive Outcome where
  | launched (instanceId : String) (info : String)
  | failed (error : String) (retry : Bool)
deriving DecidableEq, Repr

/-- Does the outcome carry `retry: True`? -/
def isRetryableFailure : Outcome → Bool
  | .failed _ true => true
  | _ => false

/-- How each handler's `except` clauses turn an uncaught exception from the
per-record body into a `results['failed']` entry: `ScaleError` is recorded
with `retry: True`, every other exception with `retry: False`. -/
def excToOutcome : PyExc → Outcome
  | .scaleError msg => .failed msg true
  | .clientError code => .failed code false
  | .valueError msg => .failed msg false
  | .attributeError => .failed "AttributeError" false

/-- The `results['successful']` list: (message_id, instance_id, info). -/
def successesOf (outs : List (String × Outcome)) : List (String × String × String) :=
  outs.filterMap fun p =>
    match p.2 with
    | .launched iid info => some (p.1, iid, info)
    | .failed _ _ => none

/-- The `results['failed']` list: (message_id, error, retry). -/
def failuresOf (outs : List (String × Outcome)) : List (String × String × Bool) :=
  outs.filterMap fun p =>
    match p.2 with
    | .failed e r => some (p.1, e, r)
    | .launched _ _ => none

/-- The handler's response: the `results` dict plus the derived
`batchItemFailures` list of message ids with `retry: True`. -/
structure BatchResult where
  successful : List (String × String × String)
  failed : List (String × String × Bool)
  batchItemFailures : List String
deriving DecidableEq, Repr

/-- Shared tail of both scale-up handlers: build `results` from the
per-record outcomes and derive `batchItemFailures` from the failed entries
whose `retry` flag is set. -/
def collectResults (outs : List (String × Outcome)) : BatchResult :=
  { successful := successesOf outs
    failed := failuresOf outs
    batchItemFailures := ((failuresOf outs).filter fun f => f.2.2).map fun f => f.1 }

/-! ## p4d-scale-up -/

/-- `SPOT_FAILOVER_ERRORS` from p4d-scale-up. -/
def SPOT_FAILOVER_ERRORS : List String :=
  ["InsufficientInstanceCapacity", "SpotMaxPriceTooLow", "MaxSpotInstanceCountExceeded"]

/-- `RETRY_ERRORS` from p4d-scale-up. -/
def RETRY_ERRORS : List String :=
  ["RequestLimitExceeded", "ServiceUnavailable"]

/-- Environment configuration of p4d-scale-up.  An unset environment
variable reads as the empty string (both are falsy in the Python guards). -/
structure P4dEnv where
  environment : String := "flashinfer"
  launchTemplateName : String := ""
  subnetIds : List String := [""]
  instanceType : String := "p4d.24xlarge"
  runnerPfx : String := "flashinfer-p4d-"
  ssmConfigPath : String := ""
deriving DecidableEq, Repr

/-- `build_tags` from p4d-scale-up: fixed identity block, a market-type
tag, then `ghr:repository` and `ghr:workflow_job_id` appended when the
corresponding `job_info` entries are truthy. -/
def build_tags (env : P4dEnv) (job : JobInfo) (market_type : String) : List Tag :=
  [ ⟨"Name", env.environment ++ "-p4d-action-runner"⟩,
    ⟨"ghr:Application", "github-action-runner"⟩,
    ⟨"ghr:created_by", "p4d-scale-up-lambda"⟩,
    ⟨"ghr:environment", env.environment⟩,
    ⟨"ghr:runner_name_prefix", env.runnerPfx⟩,
    ⟨"ghr:ssm_config_path", env.ssmConfigPath⟩,
    ⟨"ghr:market_type", market_type⟩,
    ⟨"Environment", env.environment⟩,
    ⟨"Project", "FlashInfer"⟩,
    ⟨"ManagedBy", "Terraform"⟩ ]
  ++ (if strTruthy job.repository then [⟨"ghr:repository", job.repository.getD ""⟩] else [])
  ++ (if intTruthy job.workflow_job_id then
        [⟨"ghr:workflow_job_id", toString (job.workflow_job_id.getD 0)⟩] else [])

/-- `pick_subnet` from p4d-scale-up: filter out falsy (empty) subnet ids,
raise `ScaleError` if nothing remains, otherwise `random.choice`; the
random draw is modelled by an explicit choice index reduced modulo the
pool size. -/
def pick_subnet (subnetIds : List String) (choice : Nat) : Except PyExc String :=
  let valid_subnets := subnetIds.filter fun s => s != ""
  if valid_subnets.isEmpty then .error (.scaleError "No valid subnets configured")
  else .ok (valid_subnets.getD (choice % valid_subnets.length) "")

/-- One SQS record together with the provider's responses to the remote
calls the p4d handler would make for it. -/
structure P4dRecordInput where
  messageId : String
  body : Body
  spotResult : ApiResult String
  ondemandResult : ApiResult String
  subnetChoice : Nat
deriving DecidableEq, Repr

/-- The per-record body of the p4d handler loop (lines 157–210 of
p4d-scale-up/index.py), with the two `except` clauses of the loop applied:
parse, pick a subnet, try spot, on a `SPOT_FAILOVER_ERRORS` code fall over
to on-demand, classify `RETRY_ERRORS` codes as `ScaleError` (retryable),
re-raise anything else (non-retryable). -/
def p4d_process_record (env : P4dEnv) (inp : P4dRecordInput) : Outcome :=
  match parse_sqs_message inp.body with
  | .error e => excToOutcome e
  | .ok _job =>
    match pick_subnet env.subnetIds inp.subnetChoice with
    | .error e => excToOutcome e
    | .ok _subnet =>
      match inp.spotResult with
      | .ok iid => .launched iid "spot"
      | .clientError code =>
        if code ∈ SPOT_FAILOVER_ERRORS then
          match inp.ondemandResult with
          | .ok iid2 => .launched iid2 "on-demand"
          | .clientError code2 =>
            if code2 ∈ RETRY_ERRORS then excToOutcome (.scaleError ("Retryable error: " ++ code2))
            else excToOutcome (.clientError code2)
        else if code ∈ RETRY_ERRORS then excToOutcome (.scaleError ("Retryable error: " ++ code))
        else excToOutcome (.clientError code)

/-- The p4d handler: validate configuration (a `ValueError` aborts the
whole invocation), process every record, aggregate the results. -/
def p4d_handler (env : P4dEnv) (records : List P4dRecordInput) :
    Except PyExc BatchResult :=
  if env.launchTemplateName = "" then
    .error (.valueError "LAUNCH_TEMPLATE_NAME environment variable is required")
  else if env.subnetIds = [] ∨ env.subnetIds = [""] then
    .error (.valueError "SUBNET_IDS environment variable is required")
  else
    .ok (collectResults (records.map fun r => (r.messageId, p4d_process_record env r)))

/-! ## cb-scale-up -/

/-- A capacity reservation as returned by `describe_capacity_reservations`.
Timestamps are modelled as integers; `none` models an absent field. -/
structure Reservation where
  capacityReservationId : String
  state : String
  instanceType : String
  availabilityZone : String
  availableInstanceCount : Nat := 0
  totalInstanceCount : Nat := 0
  reservationType : String := "capacity-block"
  startDate : Option Int := none
  endDate : Option Int := none
deriving DecidableEq, Repr

/-- The dict returned by `find_active_capacity_block`. -/
structure CbInfo where
  id : String
  az : String
  available : Nat
deriving DecidableEq, Repr

/-- The server-side filters that cb-scale-up's
`describe_capacity_reservations` call applies to the raw reservation
inventory: `state = 'active'` and `instance-type = instance_type`. -/
def cb_scale_up_filter (instance_type : String) (inv : List Reservation) :
    List Reservation :=
  inv.filter fun cr => cr.state == "active" && cr.instanceType == instance_type

/-- `find_active_capacity_block` from cb-scale-up: on a `ClientError` from
the describe call, log and re-raise; otherwise return the first reservation
of type `capacity-block` with `AvailableInstanceCount > 0`, or `None`. -/
def find_active_capacity_block (q : ApiResult (List Reservation))
    (instance_type : String) : Except PyExc (Option CbInfo) :=
  match q with
  | .clientError code => .error (.clientError code)
  | .ok inv =>
    match (cb_scale_up_filter instance_type inv).find? (fun cr =>
        cr.reservationType == "capacity-block" && decide (0 < cr.availableInstanceCount)) with
    | some cr => .ok (some ⟨cr.capacityReservationId, cr.availabilityZone,
        cr.availableInstanceCount⟩)
    | none => .ok none

/-- A subnet as returned by `describe_subnets` over the configured
subnet ids. -/
structure SubnetInfo where
  subnetId : String
  availabilityZone : String
deriving DecidableEq, Repr

/-- `find_subnet_in_az` from cb-scale-up: on a `ClientError`, re-raise;
otherwise take the first configured subnet in the given availability zone,
or `None`.  The query result `q` holds the configured subnets; the
server-side availability-zone filter is the explicit list filter. -/
def find_subnet_in_az (q : ApiResult (List SubnetInfo)) (az : String) :
    Except PyExc (Option String) :=
  match q with
  | .clientError code => .error (.clientError code)
  | .ok subnets =>
    match (subnets.filter fun s => s.availabilityZone == az).head? with
    | some s => .ok (some s.subnetId)
    | none => .ok none

/-- Environment configuration of cb-scale-up (`INSTANCE_TYPE` has no
default in this lambda; the empty string models an unset variable). -/
structure CbEnv where
  environment : String := "flashinfer"
  launchTemplateName : String := ""
  subnetIds : List String := [""]
  instanceType : String := ""
  runnerPfx : String := "flashinfer-cb-"
  ssmConfigPath : String := ""
deriving DecidableEq, Repr

/-- The tag list built inline inside `launch_instance_into_cb`
(cb-scale-up lines 112–128): the fixed identity block plus the two
conditional job tags.  Unlike p4d's `build_tags`, no market-type tag. -/
def cb_build_tags (env : CbEnv) (job : JobInfo) : List Tag :=
  [ ⟨"Name", env.environment ++ "-cb-action-runner"⟩,
    ⟨"ghr:Application", "github-action-runner"⟩,
    ⟨"ghr:created_by", "cb-scale-up-lambda"⟩,
    ⟨"ghr:environment", env.environment⟩,
    ⟨"ghr:runner_name_prefix", env.runnerPfx⟩,
    ⟨"ghr:ssm_config_path", env.ssmConfigPath⟩,
    ⟨"Environment", env.environment⟩,
    ⟨"Project", "FlashInfer"⟩,
    ⟨"ManagedBy", "Terraform"⟩ ]
  ++ (if strTruthy job.repository then [⟨"ghr:repository", job.repository.getD ""⟩] else [])
  ++ (if intTruthy job.workflow_job_id then
        [⟨"ghr:workflow_job_id", toString (job.workflow_job_id.getD 0)⟩] else [])

/-- The `retry_errors` list local to `launch_instance_into_cb`. -/
def CB_RETRY_ERRORS : List String :=
  ["InsufficientInstanceCapacity", "RequestLimitExceeded", "ServiceUnavailable"]

/-- The error classification of `launch_instance_into_cb`: a successful
`run_instances` returns the instance id; a `ClientError` whose code is in
`retry_errors` becomes a `ScaleError`, any other `ClientError` is
re-raised.  There is no fallback launch: the function issues exactly one
`run_instances` call, bound to the capacity reservation. -/
def launch_instance_into_cb (run_result : ApiResult String) : Except PyExc String :=
  match run_result with
  | .ok iid => .ok iid
  | .clientError code =>
    if code ∈ CB_RETRY_ERRORS then .error (.scaleError ("Retryable error: " ++ code))
    else .error (.clientError code)

/-- One SQS record together with the provider's responses to the remote
calls the cb handler would make for it. -/
structure CbRecordInput where
  messageId : String
  body : Body
  reservationsResult : ApiResult (List Reservation)
  subnetsResult : ApiResult (List SubnetInfo)
  launchResult : ApiResult String
deriving DecidableEq, Repr

/-- The per-record body of the cb handler loop (cb-scale-up lines
221–261), with its `except` clauses applied: parse, find a capacity block
(`None` raises `ScaleError`), find a subnet in its zone (`None` raises
`ScaleError`), launch into the block; `ScaleError` is recorded with
`retry: True`, any other exception with `retry: False`. -/
def cb_process_record (env : CbEnv) (inp : CbRecordInput) : Outcome :=
  match parse_sqs_message inp.body with
  | .error e => excToOutcome e
  | .ok _job =>
    match find_active_capacity_block inp.reservationsResult env.instanceType with
    | .error e => excToOutcome e
    | .ok none => excToOutcome (.scaleError ("No active Capacity Block for " ++ env.instanceType))
    | .ok (some cb) =>
      match find_subnet_in_az inp.subnetsResult cb.az with
      | .error e => excToOutcome e
      | .ok none => excToOutcome (.scaleError ("No subnet in " ++ cb.az))
      | .ok (some _subnet_id) =>
        match launch_instance_into_cb inp.launchResult with
        | .ok iid => .launched iid cb.id
        | .error e => excToOutcome e

/-- The cb-scale-up handler: validate configuration, process every record,
aggregate the results. -/
def cb_handler (env : CbEnv) (records : List CbRecordInput) :
    Except PyExc BatchResult :=
  if env.launchTemplateName = "" then
    .error (.valueError "LAUNCH_TEMPLATE_NAME environment variable is required")
  else if env.instanceType = "" then
    .error (.valueError "INSTANCE_TYPE environment variable is required")
  else if env.subnetIds = [] ∨ env.subnetIds = [""] then
    .error (.valueError "SUBNET_IDS environment variable is required")
  else
    .ok (collectResults (records.map fun r => (r.messageId, cb_process_record env r)))

/-! ## cb-manager -/

/-- `LABEL_TO_INSTANCE_TYPE` from cb-manager, as an ordered association
list (insertion order of the Python dict). -/
def LABEL_TO_INSTANCE_TYPE : List (String × String) :=
  [("b200", "p6-b200.48xlarge"), ("sm100", "p6-b200.48xlarge"),
   ("blackwell", "p6-b200.48xlarge"), ("h100", "p5.48xlarge"),
   ("sm90", "p5.48xlarge"), ("hopper", "p5.48xlarge")]

/-- `get_instance_type_from_labels`: first label (lower-cased) found in the
mapping wins; no labels or no match gives `None`. -/
def get_instance_type_from_labels (labels : List String) : Option String :=
  labels.findSome? fun label => LABEL_TO_INSTANCE_TYPE.lookup label.toLower

/-- The entry of `active_capacity_blocks` built by
`get_active_capacity_blocks`. -/
structure CbSummary where
  reservation_id : String
  state : String
  instance_type : String
  availability_zone : String
  available_capacity : Nat
  total_capacity : Nat
  start_date : Option Int
  end_date : Option Int
deriving DecidableEq, Repr

/-- The server-side filters of cb-manager's
`describe_capacity_reservations` call: instance type, state in
`{active, pending, payment-pending}`, and — only when a truthy
availability zone was passed — the availability zone. -/
def cb_manager_filter (instance_type : String) (az : Option String)
    (inv : List Reservation) : List Reservation :=
  inv.filter fun cr =>
    cr.instanceType == instance_type
    && (cr.state == "active" || cr.state == "pending" || cr.state == "payment-pending")
    && (match az with
        | some z => z == "" || cr.availabilityZone == z
        | none => true)

/-- The summary dict cb-manager builds for one reservation. -/
def mkCbSummary (cr : Reservation) : CbSummary :=
  { reservation_id := cr.capacityReservationId
    state := cr.state
    instance_type := cr.instanceType
    availability_zone := cr.availabilityZone
    available_capacity := cr.availableInstanceCount
    total_capacity := cr.totalInstanceCount
    start_date := cr.startDate
    end_date := cr.endDate }

/-- `get_active_capacity_blocks` from cb-manager: any exception from the
describe call is swallowed and yields the empty list; otherwise every
reservation passing the query filters that carries a truthy `EndDate` is
summarised, and reservations without an `EndDate` are skipped. -/
def get_active_capacity_blocks (q : ApiResult (List Reservation))
    (instance_type : String) (az : Option String) : List CbSummary :=
  match q with
  | .clientError _ => []
  | .ok inv =>
    ((cb_manager_filter instance_type az inv).filter fun cr => cr.endDate.isSome).map
      mkCbSummary

/-- The cb-manager invocation event (`event.get('action', 'status')`,
`event.get('labels', [])`, optional explicit instance type and zone). -/
structure CbManagerEvent where
  action : String := "status"
  labels : List String := []
  instance_type : Option String := none
  availability_zone : Option String := none
deriving DecidableEq, Repr

/-- cb-manager's instance-type resolution: an explicit truthy
`instance_type` wins; otherwise the labels are consulted; otherwise the
configured default. -/
def cb_manager_resolve_type (ev : CbManagerEvent) (default_type : String) : String :=
  let t0 := match ev.instance_type with
    | some t => t
    | none => ""
  let t1 := if t0 == "" && !ev.labels.isEmpty then
      match get_instance_type_from_labels ev.labels with
      | some t => t
      | none => ""
    else t0
  if t1 == "" then default_type else t1

/-- The three response shapes of the cb-manager handler. -/
inductive CbManagerResponse where
  | status (statusCode : Nat) (action : String) (instance_type : String)
      (availability_zone : Option String) (active_capacity_blocks : List CbSummary)
      (has_active_cb : Bool)
  | disabled (statusCode : Nat) (action : String) (message : String)
      (active_capacity_blocks : List CbSummary) (has_active_cb : Bool)
  | unknownAction (statusCode : Nat) (error : String)
deriving DecidableEq, Repr

/-- The cb-manager handler: resolve the instance type, query the
reservations, and dispatch on the action; `ensure`/`purchase` are
disabled; `has_active_cb` is the non-emptiness of the summarised list. -/
def cb_manager_handler (ev : CbManagerEvent) (default_type : String)
    (q : ApiResult (List Reservation)) : CbManagerResponse :=
  let instance_type := cb_manager_resolve_type ev default_type
  let active_cbs := get_active_capacity_blocks q instance_type ev.availability_zone
  if ev.action = "check" ∨ ev.action = "status" then
    .status 200 ev.action instance_type ev.availability_zone active_cbs
      (decide (0 < active_cbs.length))
  else if ev.action = "ensure" ∨ ev.action = "purchase" then
    .disabled 400 ev.action
      "Automatic CB purchase is DISABLED. Please purchase CBs manually via AWS Console."
      active_cbs (decide (0 < active_cbs.length))
  else
    .unknownAction 400 ("Unknown action: " ++ ev.action)

/-! ## Aggregation lemmas -/

theorem successesOf_length_add (outs : List (String × Outcome)) :
    (successesOf outs).length + (failuresOf outs).length = outs.length := by
  induction outs with
  | nil => rfl
  | cons p rest ih =>
    rcases p with ⟨m, o⟩
    cases o <;>
      simp only [successesOf, failuresOf, List.filterMap_cons, List.length_cons] at ih ⊢ <;>
      omega

theorem mem_successesOf {outs : List (String × Outcome)} {m iid info : String} :
    (m, iid, info) ∈ successesOf outs ↔ (m, Outcome.launched iid info) ∈ outs := by
  simp only [successesOf, List.mem_filterMap]
  constructor
  · rintro ⟨⟨m2, o⟩, hmem, heq⟩
    cases o with
    | launched a b =>
      simp only [Option.some.injEq, Prod.mk.injEq] at heq
      obtain ⟨h1, h2, h3⟩ := heq
      subst h1; subst h2; subst h3; exact hmem
    | failed e r => simp at heq
  · intro hmem
    exact ⟨(m, .launched iid info), hmem, rfl⟩

theorem mem_failuresOf {outs : List (String × Outcome)} {m e : String} {r : Bool} :
    (m, e, r) ∈ failuresOf outs ↔ (m, Outcome.failed e r) ∈ outs := by
  simp only [failuresOf, List.mem_filterMap]
  constructor
  · rintro ⟨⟨m2, o⟩, hmem, heq⟩
    cases o with
    | launched a b => simp at heq
    | failed e2 r2 =>
      simp only [Option.some.injEq, Prod.mk.injEq] at heq
      obtain ⟨h1, h2, h3⟩ := heq
      subst h1; subst h2; subst h3; exact hmem
  · intro hmem
    exact ⟨(m, .failed e r), hmem, rfl⟩

theorem mem_batchItemFailures {outs : List (String × Outcome)} {m : String} :
    m ∈ (collectResults outs).batchItemFailures ↔
      ∃ e, (m, Outcome.failed e true) ∈ outs := by
  simp only [collectResults, List.mem_map, List.mem_filter]
  constructor
  · rintro ⟨⟨m2, e, r⟩, ⟨hmem, hr⟩, hfst⟩
    simp only at hfst hr
    subst hfst
    rcases r with _ | _
    · simp at hr
    · exact ⟨e, mem_failuresOf.1 hmem⟩
  · rintro ⟨e, hmem⟩
    exact ⟨(m, e, true), ⟨mem_failuresOf.2 hmem, rfl⟩, rfl⟩

/-- With pairwise-distinct message ids, an id that appears in the retry
directive belongs to no successful entry and to no non-retryable failed
entry. -/
theorem batchItemFailures_disjoint {outs : List (String × Outcome)}
    (hn : (outs.map Prod.fst).Nodup) {m : String}
    (hm : m ∈ (collectResults outs).batchItemFailures) :
    (∀ s ∈ (collectResults outs).successful, s.1 ≠ m)
    ∧ (∀ f ∈ (collectResults outs).failed, f.1 = m → f.2.2 = true) := by
  obtain ⟨e, hmem⟩ := mem_batchItemFailures.1 hm
  have hinj := List.inj_on_of_nodup_map hn
  constructor
  · rintro ⟨ms, iid, info⟩ hs rfl
    have hsmem : (ms, Outcome.launched iid info) ∈ outs := mem_successesOf.1 hs
    have : (ms, Outcome.launched iid info) = (ms, Outcome.failed e true) :=
      hinj hsmem hmem rfl
    simp at this
  · rintro ⟨mf, ef, rf⟩ hf rfl
    have hfmem : (mf, Outcome.failed ef rf) ∈ outs := mem_failuresOf.1 hf
    have heq : (mf, Outcome.failed ef rf) = (mf, Outcome.failed e true) :=
      hinj hfmem hmem rfl
    simp only [Prod.mk.injEq, Outcome.failed.injEq, true_and] at heq
    exact heq.2

theorem p4d_handler_ok {env : P4dEnv} {records : List P4dRecordInput} {br : BatchResult}
    (h : p4d_handler env records = .ok br) :
    br = collectResults (records.map fun r => (r.messageId, p4d_process_record env r)) := by
  unfold p4d_handler at h
  split at h
  · cases h
  · split at h
    · cases h
    · cases h; rfl

theorem cb_handler_ok {env : CbEnv} {records : List CbRecordInput} {br : BatchResult}
    (h : cb_handler env records = .ok br) :
    br = collectResults (records.map fun r => (r.messageId, cb_process_record env r)) := by
  unfold cb_handler at h
  split at h
  · cases h
  · split at h
    · cases h
    · split at h
      · cases h
      · cases h; rfl

/-- Combined specification of `collectResults` on a list of per-record
outcomes with pairwise-distinct message ids. -/
theorem collectResults_spec (outs : List (String × Outcome))
    (hn : (outs.map Prod.fst).Nodup) :
    (collectResults outs).successful.length + (collectResults outs).failed.length
        = outs.length
    ∧ (∀ m, m ∈ (collectResults outs).batchItemFailures ↔
        ∃ p ∈ outs, p.1 = m ∧ isRetryableFailure p.2 = true)
    ∧ (∀ s ∈ (collectResults outs).successful,
        s.1 ∉ (collectResults outs).batchItemFailures)
    ∧ (∀ f ∈ (collectResults outs).failed, f.2.2 = false →
        f.1 ∉ (collectResults outs).batchItemFailures) := by
  refine ⟨successesOf_length_add outs, ?_, ?_, ?_⟩
  · intro m
    rw [mem_batchItemFailures]
    constructor
    · rintro ⟨e, hmem⟩
      exact ⟨(m, .failed e true), hmem, rfl, rfl⟩
    · rintro ⟨⟨m2, o⟩, hmem, hfst, hr⟩
      simp only at hfst
      subst hfst
      cases o with
      | launched iid info => simp [isRetryableFailure] at hr
      | failed e r =>
        cases r with
        | false => simp [isRetryableFailure] at hr
        | true => exact ⟨e, hmem⟩
  · intro s hs hmem
    exact (batchItemFailures_disjoint hn hmem).1 s hs rfl
  · intro f hf hfr hmem
    have := (batchItemFailures_disjoint hn hmem).2 f hf rfl
    rw [hfr] at this
    cases this

/-- C1: For every incoming batch — in both the p4d-scale-up and the
cb-scale-up handlers — processing produces exactly one outcome per input
record (no record is silently dropped), and the emitted
`batchItemFailures` retry directive contains exactly the message ids of
records whose recorded failure is marked retryable: no successful record's
id and no non-retryable failure's id appears in it. -/
theorem C1_batch_outcomes_and_retry_directive
    (penv : P4dEnv) (precs : List P4dRecordInput) (pbr : BatchResult)
    (cenv : CbEnv) (crecs : List CbRecordInput) (cbr : BatchResult)
    (hp : p4d_handler penv precs = .ok pbr)
    (hc : cb_handler cenv crecs = .ok cbr)
    (hpn : (precs.map P4dRecordInput.messageId).Nodup)
    (hcn : (crecs.map CbRecordInput.messageId).Nodup) :
    (pbr.successful.length + pbr.failed.length = precs.length
      ∧ (∀ m, m ∈ pbr.batchItemFailures ↔
          ∃ rec ∈ precs, rec.messageId = m
            ∧ isRetryableFailure (p4d_process_record penv rec) = true)
      ∧ (∀ s ∈ pbr.successful, s.1 ∉ pbr.batchItemFailures)
      ∧ (∀ f ∈ pbr.failed, f.2.2 = false → f.1 ∉ pbr.batchItemFailures))
    ∧ (cbr.successful.length + cbr.failed.length = crecs.length
      ∧ (∀ m, m ∈ cbr.batchItemFailures ↔
          ∃ rec ∈ crecs, rec.messageId = m
            ∧ isRetryableFailure (cb_process_record cenv rec) = true)
      ∧ (∀ s ∈ cbr.successful, s.1 ∉ cbr.batchItemFailures)
      ∧ (∀ f ∈ cbr.failed, f.2.2 = false → f.1 ∉ cbr.batchItemFailures)) := by
  have hbr := p4d_handler_ok hp
  have hbr2 := cb_handler_ok hc
  subst hbr
  subst hbr2
  have hpn2 : ((precs.map fun r => (r.messageId, p4d_process_record penv r)).map
      Prod.fst).Nodup := by
    rw [List.map_map]
    exact hpn
  have hcn2 : ((crecs.map fun r => (r.messageId, cb_process_record cenv r)).map
      Prod.fst).Nodup := by
    rw [List.map_map]
    exact hcn
  obtain ⟨hl1, hm1, hs1, hf1⟩ := collectResults_spec _ hpn2
  obtain ⟨hl2, hm2, hs2, hf2⟩ := collectResults_spec _ hcn2
  refine ⟨⟨by simpa using hl1, ?_, hs1, hf1⟩, ⟨by simpa using hl2, ?_, hs2, hf2⟩⟩
  · intro m
    rw [hm1]
    constructor
    · rintro ⟨p, hp2, hfst, hr⟩
      obtain ⟨rec, hrec, rfl⟩ := List.mem_map.1 hp2
      exact ⟨rec, hrec, hfst, hr⟩
    · rintro ⟨rec, hrec, hid, hr⟩
      exact ⟨(rec.messageId, p4d_process_record penv rec),
        List.mem_map.2 ⟨rec, hrec, rfl⟩, hid, hr⟩
  · intro m
    rw [hm2]
    constructor
    · rintro ⟨p, hp2, hfst, hr⟩
      obtain ⟨rec, hrec, rfl⟩ := List.mem_map.1 hp2
      exact ⟨rec, hrec, hfst, hr⟩
    · rintro ⟨rec, hrec, hid, hr⟩
      exact ⟨(rec.messageId, cb_process_record cenv rec),
        List.mem_map.2 ⟨rec, hrec, rfl⟩, hid, hr⟩

/-- Concrete p4d environment used by witnesses. -/
def penvW : P4dEnv := { launchTemplateName := "lt-p4d", subnetIds := ["subnet-1"] }

/-- Concrete p4d batch: one record that launches on spot, one whose spot
launch is throttled. -/
def precsW : List P4dRecordInput :=
  [ { messageId := "m1", body := .obj {}, spotResult := .ok "i-1",
      ondemandResult := .ok "i-2", subnetChoice := 0 },
    { messageId := "m2", body := .obj {},
      spotResult := .clientError "RequestLimitExceeded",
      ondemandResult := .ok "i-3", subnetChoice := 0 } ]

/-- Concrete cb environment used by witnesses. -/
def cenvW : CbEnv :=
  { launchTemplateName := "lt-cb", instanceType := "p5.48xlarge", subnetIds := ["subnet-1"] }

/-- Concrete cb batch: a single record for which no capacity block exists. -/
def crecsW : List CbRecordInput :=
  [ { messageId := "n1", body := .obj {}, reservationsResult := .ok [],
      subnetsResult := .ok [], launchResult := .ok "i-9" } ]

theorem C1_batch_outcomes_and_retry_directive_witness :
    p4d_handler penvW precsW = .ok
      { successful := [("m1", "i-1", "spot")],
        failed := [("m2", "Retryable error: RequestLimitExceeded", true)],
        batchItemFailures := ["m2"] }
    ∧ cb_handler cenvW crecsW = .ok
      { successful := [],
        failed := [("n1", "No active Capacity Block for p5.48xlarge", true)],
        batchItemFailures := ["n1"] }
    ∧ (∀ m, m ∈ ["m2"] ↔
        ∃ rec ∈ precsW, rec.messageId = m
          ∧ isRetryableFailure (p4d_process_record penvW rec) = true)
    ∧ (∀ s ∈ [("m1", "i-1", "spot")], Prod.fst s ∉ ["m2"]) := by
  have h := C1_batch_outcomes_and_retry_directive penvW precsW
    { successful := [("m1", "i-1", "spot")],
      failed := [("m2", "Retryable error: RequestLimitExceeded", true)],
      batchItemFailures := ["m2"] }
    cenvW crecsW
    { successful := [],
      failed := [("n1", "No active Capacity Block for p5.48xlarge", true)],
      batchItemFailures := ["n1"] }
    rfl rfl (by decide) (by decide)
  exact ⟨rfl, rfl, h.1.2.1, h.1.2.2.1⟩

example : p4d_process_record { launchTemplateName := "lt", subnetIds := ["s-1"] }
    { messageId := "m1", body := .obj {},
      spotResult := .clientError "InsufficientInstanceCapacity",
      ondemandResult := .ok "i-2", subnetChoice := 0 } = .launched "i-2" "on-demand" := by
  decide

example : p4d_process_record { launchTemplateName := "lt", subnetIds := ["s-1"] }
    { messageId := "m1", body := .obj {},
      spotResult := .clientError "RequestLimitExceeded",
      ondemandResult := .ok "i-2", subnetChoice := 0 } =
    .failed "Retryable error: RequestLimitExceeded" true := by
  decide


/-- C2: The capacity resolver of the reservation-bound launch path never
selects a reservation with `AvailableInstanceCount = 0`: for every
inventory it may observe, a returned reservation is `active`, of the
requested type and capacity-block kind, and has strictly positive
available capacity. -/
theorem C2_resolver_requires_available_capacity
    (inv : List Reservation) (t : String) (cb : CbInfo)
    (h : find_active_capacity_block (.ok inv) t = .ok (some cb)) :
    ∃ cr ∈ inv, cr.capacityReservationId = cb.id ∧ cr.state = "active"
      ∧ cr.instanceType = t ∧ cr.reservationType = "capacity-block"
      ∧ 0 < cr.availableInstanceCount
      ∧ cb.az = cr.availabilityZone ∧ cb.available = cr.availableInstanceCount := by
  simp only [find_active_capacity_block] at h
  cases hfind : (cb_scale_up_filter t inv).find? (fun cr =>
      cr.reservationType == "capacity-block" && decide (0 < cr.availableInstanceCount)) with
  | none => rw [hfind] at h; cases h
  | some cr =>
    rw [hfind] at h
    simp only [Except.ok.injEq, Option.some.injEq] at h
    subst h
    have hmem := List.mem_of_find?_eq_some hfind
    have hpred := List.find?_some hfind
    simp only [cb_scale_up_filter, List.mem_filter, Bool.and_eq_true, beq_iff_eq] at hmem
    simp only [Bool.and_eq_true, beq_iff_eq, decide_eq_true_eq] at hpred
    exact ⟨cr, hmem.1, rfl, hmem.2.1, hmem.2.2, hpred.1, hpred.2, rfl, rfl⟩

/-- Inventory holding an exhausted active capacity block ahead of one with
available capacity, for the C2 witness. -/
def invW : List Reservation :=
  [ { capacityReservationId := "cr-0", state := "active",
      instanceType := "p5.48xlarge", availabilityZone := "us-west-2a",
      availableInstanceCount := 0, totalInstanceCount := 4 },
    { capacityReservationId := "cr-1", state := "active",
      instanceType := "p5.48xlarge", availabilityZone := "us-west-2b",
      availableInstanceCount := 2, totalInstanceCount := 4 } ]

theorem C2_resolver_requires_available_capacity_witness :
    find_active_capacity_block (.ok invW) "p5.48xlarge"
        = .ok (some ⟨"cr-1", "us-west-2b", 2⟩)
    ∧ ∃ cr ∈ invW, cr.capacityReservationId = "cr-1" ∧ cr.state = "active"
        ∧ cr.instanceType = "p5.48xlarge" ∧ cr.reservationType = "capacity-block"
        ∧ 0 < cr.availableInstanceCount
        ∧ "us-west-2b" = cr.availabilityZone ∧ 2 = cr.availableInstanceCount :=
  ⟨rfl, C2_resolver_requires_available_capacity invW "p5.48xlarge"
    ⟨"cr-1", "us-west-2b", 2⟩ rfl⟩

/-- C3: A reservation-bound launch attempt that fails with a
capacity-exhaustion or throttling code (`InsufficientInstanceCapacity`,
`RequestLimitExceeded`, `ServiceUnavailable`) yields a retryable failure
and never a launch into another market (the outcome is never `launched`);
any other launch error yields a terminal, non-retryable failure. -/
theorem C3_cb_launch_error_classification
    (env : CbEnv) (inp : CbRecordInput) (job : JobInfo) (cb : CbInfo)
    (sn code : String)
    (hparse : parse_sqs_message inp.body = .ok job)
    (hcb : find_active_capacity_block inp.reservationsResult env.instanceType
        = .ok (some cb))
    (hsn : find_subnet_in_az inp.subnetsResult cb.az = .ok (some sn))
    (hl : inp.launchResult = .clientError code) :
    (code ∈ CB_RETRY_ERRORS →
       cb_process_record env inp = .failed ("Retryable error: " ++ code) true)
    ∧ (code ∉ CB_RETRY_ERRORS → cb_process_record env inp = .failed code false)
    ∧ ∀ iid info, cb_process_record env inp ≠ .launched iid info := by
  by_cases hmem : code ∈ CB_RETRY_ERRORS
  · have hred : cb_process_record env inp = .failed ("Retryable error: " ++ code) true := by
      simp only [cb_process_record, hparse, hcb, hsn, hl, launch_instance_into_cb,
        if_pos hmem, excToOutcome]
    exact ⟨fun _ => hred, fun hn => absurd hmem hn, fun iid info => by rw [hred]; simp⟩
  · have hred : cb_process_record env inp = .failed code false := by
      simp only [cb_process_record, hparse, hcb, hsn, hl, launch_instance_into_cb,
        if_neg hmem, excToOutcome]
    exact ⟨fun hy => absurd hy hmem, fun _ => hred, fun iid info => by rw [hred]; simp⟩

/-- A cb-scale-up record whose reservation query finds an active block,
whose subnet query finds a matching subnet, and whose launch call is
rejected for insufficient capacity; used by the C3 witness. -/
def cinpW : CbRecordInput :=
  { messageId := "n2", body := .obj {},
    reservationsResult := .ok
      [ { capacityReservationId := "cr-1", state := "active",
          instanceType := "p5.48xlarge", availabilityZone := "us-west-2b",
          availableInstanceCount := 2, totalInstanceCount := 4 } ],
    subnetsResult := .ok [{ subnetId := "subnet-1", availabilityZone := "us-west-2b" }],
    launchResult := .clientError "InsufficientInstanceCapacity" }

theorem C3_cb_launch_error_classification_witness :
    "InsufficientInstanceCapacity" ∈ CB_RETRY_ERRORS
    ∧ cb_process_record cenvW cinpW
        = .failed "Retryable error: InsufficientInstanceCapacity" true := by
  have h := C3_cb_launch_error_classification cenvW cinpW
    { workflow_job_id := none, repository := some "None/None",
      event_type := none, installation_id := none }
    ⟨"cr-1", "us-west-2b", 2⟩ "subnet-1" "InsufficientInstanceCapacity"
    rfl rfl rfl rfl
  exact ⟨by decide, h.1 (by decide)⟩

/-- C4: In the spot+fallback strategy, when the spot launch fails with a
capacity-exhaustion-class code and the on-demand launch succeeds, the
recorded success carries market type `on-demand`, not `spot`. -/
theorem C4_failover_success_is_on_demand
    (env : P4dEnv) (m : String) (body : Body) (job : JobInfo)
    (od : ApiResult String) (choice : Nat) (sn code iid : String)
    (hparse : parse_sqs_message body = .ok job)
    (hsn : pick_subnet env.subnetIds choice = .ok sn)
    (hcode : code ∈ SPOT_FAILOVER_ERRORS)
    (hod : od = .ok iid) :
    p4d_process_record env ⟨m, body, .clientError code, od, choice⟩
      = .launched iid "on-demand" := by
  subst hod
  unfold p4d_process_record
  rw [hparse, hsn]
  simp only [if_pos hcode]

theorem C4_failover_success_is_on_demand_witness :
    "InsufficientInstanceCapacity" ∈ SPOT_FAILOVER_ERRORS
    ∧ p4d_process_record penvW
        ⟨"m3", .obj {}, .clientError "InsufficientInstanceCapacity", .ok "i-4", 0⟩
      = .launched "i-4" "on-demand" :=
  ⟨by decide,
   C4_failover_success_is_on_demand penvW "m3" (.obj {})
    { workflow_job_id := none, repository := some "None/None",
      event_type := none, installation_id := none }
    (.ok "i-4") 0 "subnet-1" "InsufficientInstanceCapacity" "i-4"
    rfl rfl (by decide) rfl⟩

/-- C5: In the spot+fallback strategy, a throttling-class code
(`RequestLimitExceeded`, `ServiceUnavailable`) on the spot attempt yields a
retryable failure whatever the on-demand result would have been (so no
on-demand attempt is ever made), and a throttling-class code on the
on-demand fallback attempt also yields a retryable failure; neither is
ever terminal. -/
theorem C5_throttling_always_retryable
    (env : P4dEnv) (m : String) (body : Body) (job : JobInfo)
    (od : ApiResult String) (choice : Nat) (sn : String)
    (hparse : parse_sqs_message body = .ok job)
    (hsn : pick_subnet env.subnetIds choice = .ok sn) :
    (∀ code, code ∈ RETRY_ERRORS →
      p4d_process_record env ⟨m, body, .clientError code, od, choice⟩
        = .failed ("Retryable error: " ++ code) true)
    ∧ (∀ code code2, code ∈ SPOT_FAILOVER_ERRORS → code2 ∈ RETRY_ERRORS →
      p4d_process_record env ⟨m, body, .clientError code, .clientError code2, choice⟩
        = .failed ("Retryable error: " ++ code2) true) := by
  constructor
  · intro code hmem
    have hnotfo : code ∉ SPOT_FAILOVER_ERRORS := by
      simp only [RETRY_ERRORS, List.mem_cons, List.not_mem_nil, or_false] at hmem
      rcases hmem with rfl | rfl <;> decide
    unfold p4d_process_record
    rw [hparse, hsn]
    simp only [if_neg hnotfo, if_pos hmem, excToOutcome]
  · intro code code2 hfo hmem
    unfold p4d_process_record
    rw [hparse, hsn]
    simp only [if_pos hfo, if_pos hmem, excToOutcome]

theorem C5_throttling_always_retryable_witness :
    "ServiceUnavailable" ∈ RETRY_ERRORS
    ∧ p4d_process_record penvW
        ⟨"m4", .obj {}, .clientError "ServiceUnavailable", .ok "i-5", 0⟩
      = .failed "Retryable error: ServiceUnavailable" true
    ∧ p4d_process_record penvW
        ⟨"m4", .obj {}, .clientError "SpotMaxPriceTooLow",
          .clientError "RequestLimitExceeded", 0⟩
      = .failed "Retryable error: RequestLimitExceeded" true := by
  have h := C5_throttling_always_retryable penvW "m4" (.obj {})
    { workflow_job_id := none, repository := some "None/None",
      event_type := none, installation_id := none }
    (.ok "i-5") 0 "subnet-1" rfl rfl
  have h2 := C5_throttling_always_retryable penvW "m4" (.obj {})
    { workflow_job_id := none, repository := some "None/None",
      event_type := none, installation_id := none }
    (.clientError "RequestLimitExceeded") 0 "subnet-1" rfl rfl
  exact ⟨by decide, h.1 "ServiceUnavailable" (by decide),
    h2.2 "SpotMaxPriceTooLow" "RequestLimitExceeded" (by decide) (by decide)⟩

/-- C6 counterexample: a failing reservation-inventory query in the
cb-scale-up handler produces a terminal, non-retryable outcome (the
re-raised `ClientError` falls into the generic `except Exception` branch,
`retry: False`), and the cb-manager query path swallows the failure into
an empty list — the claim asserts a retryable outcome. -/
theorem C6_counterexample :
    cb_process_record cenvW
      { messageId := "n3", body := .obj {},
        reservationsResult := .clientError "InternalError",
        subnetsResult := .ok [], launchResult := .ok "i-1" }
      = .failed "InternalError" false
    ∧ isRetryableFailure (Outcome.failed "InternalError" false) = false
    ∧ get_active_capacity_blocks (.clientError "InternalError") "p5.48xlarge" none = [] :=
  ⟨rfl, rfl, rfl⟩

/-- C6 (amended): whenever `describe_capacity_reservations` raises in the
cb-scale-up path, the error propagates out of `find_active_capacity_block`
— it is not swallowed into an empty "no reservations found" result — and
the affected request's outcome is a terminal, non-retryable failure; in
the cb-manager status path the error is swallowed and reported as an
empty reservation list. -/
theorem C6_describe_failure_amended
    (env : CbEnv) (inp : CbRecordInput) (job : JobInfo) (code : String)
    (hparse : parse_sqs_message inp.body = .ok job)
    (hq : inp.reservationsResult = .clientError code) :
    find_active_capacity_block inp.reservationsResult env.instanceType
      = .error (.clientError code)
    ∧ cb_process_record env inp = .failed code false
    ∧ isRetryableFailure (cb_process_record env inp) = false
    ∧ (∀ t az, get_active_capacity_blocks (.clientError code) t az = []) := by
  have h1 : find_active_capacity_block inp.reservationsResult env.instanceType
      = .error (.clientError code) := by rw [hq]; rfl
  have h2 : cb_process_record env inp = .failed code false := by
    simp only [cb_process_record, hparse, h1, excToOutcome]
  exact ⟨h1, h2, by rw [h2]; rfl, fun t az => rfl⟩

theorem C6_describe_failure_amended_witness :
    cb_process_record cenvW
      { messageId := "n4", body := .obj {},
        reservationsResult := .clientError "RequestLimitExceeded",
        subnetsResult := .ok [], launchResult := .ok "i-1" }
      = .failed "RequestLimitExceeded" false
    ∧ (∀ t az, get_active_capacity_blocks (.clientError "RequestLimitExceeded") t az = []) := by
  have h := C6_describe_failure_amended cenvW
    { messageId := "n4", body := .obj {},
      reservationsResult := .clientError "RequestLimitExceeded",
      subnetsResult := .ok [], launchResult := .ok "i-1" }
    { workflow_job_id := none, repository := some "None/None",
      event_type := none, installation_id := none }
    "RequestLimitExceeded" rfl rfl
  exact ⟨h.2.1, h.2.2.2⟩

/-- A p4d environment whose subnet pool holds two blank entries: it passes
the handler's up-front guard (which only rejects the single-element blank
list) but leaves `pick_subnet` with nothing valid. -/
def penvX : P4dEnv := { launchTemplateName := "lt-p4d", subnetIds := ["", ""] }

/-- C7 counterexample: with a subnet pool of two blank entries the request
fails with `retry: True` — a retryable failure whose id enters the retry
directive — where the claim demands a non-retryable configuration
condition. -/
theorem C7_counterexample :
    p4d_handler penvX
      [ { messageId := "m1", body := .obj {}, spotResult := .ok "i-1",
          ondemandResult := .ok "i-2", subnetChoice := 0 } ]
      = .ok { successful := [],
              failed := [("m1", "No valid subnets configured", true)],
              batchItemFailures := ["m1"] } := rfl

/-- C7 (amended): a subnet pool equal to the single blank entry (unset or
empty `SUBNET_IDS`) aborts the whole invocation up front with a
`ValueError`; a pool containing only blank entries in any other shape is
not caught by that guard, and subnet selection then raises `ScaleError`,
so the request's outcome is a retryable — not non-retryable — failure,
and never an empty success. -/
theorem C7_blank_subnet_pool_amended
    (env : P4dEnv) (recs : List P4dRecordInput) (rec : P4dRecordInput) (job : JobInfo)
    (hlt : env.launchTemplateName ≠ "")
    (hparse : parse_sqs_message rec.body = .ok job) :
    (env.subnetIds = [""] →
      p4d_handler env recs
        = .error (.valueError "SUBNET_IDS environment variable is required"))
    ∧ ((env.subnetIds.filter fun s => s != "") = [] →
        pick_subnet env.subnetIds rec.subnetChoice
          = .error (.scaleError "No valid subnets configured")
        ∧ p4d_process_record env rec = .failed "No valid subnets configured" true) := by
  constructor
  · intro hsub
    unfold p4d_handler
    rw [if_neg hlt, if_pos (Or.inr hsub)]
  · intro hfil
    have hpick : pick_subnet env.subnetIds rec.subnetChoice
        = .error (.scaleError "No valid subnets configured") := by
      unfold pick_subnet
      rw [hfil]
      rfl
    refine ⟨hpick, ?_⟩
    simp only [p4d_process_record, hparse, hpick, excToOutcome]

theorem C7_blank_subnet_pool_amended_witness :
    pick_subnet penvX.subnetIds 0 = .error (.scaleError "No valid subnets configured")
    ∧ p4d_process_record penvX
        { messageId := "m1", body := .obj {}, spotResult := .ok "i-1",
          ondemandResult := .ok "i-2", subnetChoice := 0 }
      = .failed "No valid subnets configured" true := by
  have h := C7_blank_subnet_pool_amended penvX []
    { messageId := "m1", body := .obj {}, spotResult := .ok "i-1",
      ondemandResult := .ok "i-2", subnetChoice := 0 }
    { workflow_job_id := none, repository := some "None/None",
      event_type := none, installation_id := none }
    (by decide) rfl
  exact h.2 (by decide)

/-- C8 counterexample: a record whose body is invalid JSON is not recorded
as a parse failure at all — `parse_sqs_message` swallows the decode error
into an empty job-info dict and the handler proceeds to a (successful)
spot launch — where the claim demands a non-retryable parse failure. -/
theorem C8_counterexample :
    parse_sqs_message (Body.invalidJson "not json") = .ok {}
    ∧ p4d_process_record penvW
        { messageId := "m9", body := .invalidJson "not json",
          spotResult := .ok "i-7", ondemandResult := .ok "i-8", subnetChoice := 0 }
      = .launched "i-7" "spot" :=
  ⟨rfl, rfl⟩

/-- C8 (amended): a message with invalid JSON or a missing body yields the
empty job-info dict — it is not recorded as a parse failure — and
processing continues for that message exactly as for a well-formed one
(here: through to a launch); malformed messages never abort processing of
the remaining messages in the batch, every record still receiving exactly
one outcome. -/
theorem C8_malformed_payload_amended
    (env : P4dEnv) (m s iid : String) (od : ApiResult String) (choice : Nat)
    (sn : String) (recs : List P4dRecordInput) (br : BatchResult)
    (hsn : pick_subnet env.subnetIds choice = .ok sn)
    (hh : p4d_handler env recs = .ok br) :
    parse_sqs_message Body.missing = .ok {}
    ∧ parse_sqs_message (Body.invalidJson s) = .ok {}
    ∧ p4d_process_record env ⟨m, .invalidJson s, .ok iid, od, choice⟩
        = .launched iid "spot"
    ∧ p4d_process_record env ⟨m, .missing, .ok iid, od, choice⟩
        = .launched iid "spot"
    ∧ br.successful.length + br.failed.length = recs.length := by
  refine ⟨rfl, rfl, ?_, ?_, ?_⟩
  · simp only [p4d_process_record, parse_sqs_message, hsn]
  · simp only [p4d_process_record, parse_sqs_message, hsn]
  · have hbr := p4d_handler_ok hh
    subst hbr
    have := successesOf_length_add
      (recs.map fun r => (r.messageId, p4d_process_record env r))
    simpa using this

theorem C8_malformed_payload_amended_witness :
    p4d_process_record penvW
      { messageId := "m9", body := .invalidJson "oops",
        spotResult := .ok "i-7", ondemandResult := .ok "i-8", subnetChoice := 0 }
      = .launched "i-7" "spot"
    ∧ p4d_process_record penvW
      { messageId := "m9", body := .missing,
        spotResult := .ok "i-7", ondemandResult := .ok "i-8", subnetChoice := 0 }
      = .launched "i-7" "spot" := by
  have h := C8_malformed_payload_amended penvW "m9" "oops" "i-7" (.ok "i-8") 0
    "subnet-1" [] { successful := [], failed := [], batchItemFailures := [] }
    rfl rfl
  exact ⟨h.2.2.1, h.2.2.2.1⟩

/-- C9 counterexample: the tag set of the reservation-bound launch path
(`launch_instance_into_cb`) contains no market-type tag, even with full
job metadata present — the claim asserts every launch path carries one. -/
theorem C9_counterexample :
    ¬ ∃ tg ∈ cb_build_tags cenvW
        { workflow_job_id := some 7,
          repository := some "flashinfer-ai/flashinfer",
          event_type := none, installation_id := none },
      Tag.key tg = "ghr:market_type" := by
  decide

/-- C9 (amended): the spot and on-demand launch paths tag instances with
the fixed identity block (application name, creator, environment,
management marker), a market-type tag, and the repository and
workflow-job-id tags when the parsed job metadata carries them; the
reservation-bound launch path carries the same identity block and job
tags but no market-type tag. -/
theorem C9_launch_tags_amended (penv : P4dEnv) (cenv : CbEnv) (job : JobInfo)
    (market_type : String) :
    (Tag.mk "ghr:Application" "github-action-runner" ∈ build_tags penv job market_type
     ∧ Tag.mk "ghr:created_by" "p4d-scale-up-lambda" ∈ build_tags penv job market_type
     ∧ Tag.mk "ghr:environment" penv.environment ∈ build_tags penv job market_type
     ∧ Tag.mk "ManagedBy" "Terraform" ∈ build_tags penv job market_type
     ∧ Tag.mk "ghr:market_type" market_type ∈ build_tags penv job market_type
     ∧ (strTruthy job.repository = true →
         Tag.mk "ghr:repository" (job.repository.getD "") ∈ build_tags penv job market_type)
     ∧ (intTruthy job.workflow_job_id = true →
         Tag.mk "ghr:workflow_job_id" (toString (job.workflow_job_id.getD 0))
           ∈ build_tags penv job market_type))
    ∧ (Tag.mk "ghr:Application" "github-action-runner" ∈ cb_build_tags cenv job
     ∧ Tag.mk "ghr:created_by" "cb-scale-up-lambda" ∈ cb_build_tags cenv job
     ∧ Tag.mk "ghr:environment" cenv.environment ∈ cb_build_tags cenv job
     ∧ Tag.mk "ManagedBy" "Terraform" ∈ cb_build_tags cenv job
     ∧ (∀ tg ∈ cb_build_tags cenv job, Tag.key tg ≠ "ghr:market_type")
     ∧ (strTruthy job.repository = true →
         Tag.mk "ghr:repository" (job.repository.getD "") ∈ cb_build_tags cenv job)
     ∧ (intTruthy job.workflow_job_id = true →
         Tag.mk "ghr:workflow_job_id" (toString (job.workflow_job_id.getD 0))
           ∈ cb_build_tags cenv job)) := by
  refine ⟨⟨?_, ?_, ?_, ?_, ?_, ?_, ?_⟩, ⟨?_, ?_, ?_, ?_, ?_, ?_, ?_⟩⟩
  · simp [build_tags]
  · simp [build_tags]
  · simp [build_tags]
  · simp [build_tags]
  · simp [build_tags]
  · intro h
    simp [build_tags, h]
  · intro h
    simp [build_tags, h]
  · simp [cb_build_tags]
  · simp [cb_build_tags]
  · simp [cb_build_tags]
  · simp [cb_build_tags]
  · intro tg htg
    simp only [cb_build_tags, List.mem_append, List.mem_cons,
      List.not_mem_nil, or_false] at htg
    rcases htg with (h | h) | h
    · rcases h with h | h | h | h | h | h | h | h | h <;> subst h <;> simp
    · by_cases hc : strTruthy job.repository
      · rw [if_pos hc] at h
        simp only [List.mem_cons, List.not_mem_nil, or_false] at h
        subst h
        simp
      · rw [if_neg hc] at h
        simp at h
    · by_cases hc : intTruthy job.workflow_job_id
      · rw [if_pos hc] at h
        simp only [List.mem_cons, List.not_mem_nil, or_false] at h
        subst h
        simp
      · rw [if_neg hc] at h
        simp at h
  · intro h
    simp [cb_build_tags, h]
  · intro h
    simp [cb_build_tags, h]

theorem C9_launch_tags_amended_witness :
    Tag.mk "ghr:market_type" "spot" ∈ build_tags penvW
      { workflow_job_id := some 7, repository := some "flashinfer-ai/flashinfer",
        event_type := none, installation_id := none } "spot"
    ∧ Tag.mk "ghr:repository" "flashinfer-ai/flashinfer" ∈ cb_build_tags cenvW
      { workflow_job_id := some 7, repository := some "flashinfer-ai/flashinfer",
        event_type := none, installation_id := none }
    ∧ (∀ tg ∈ cb_build_tags cenvW
        { workflow_job_id := some 7, repository := some "flashinfer-ai/flashinfer",
          event_type := none, installation_id := none },
        Tag.key tg ≠ "ghr:market_type") := by
  have h := C9_launch_tags_amended penvW cenvW
    { workflow_job_id := some 7, repository := some "flashinfer-ai/flashinfer",
      event_type := none, installation_id := none } "spot"
  exact ⟨h.1.2.2.2.2.1, h.2.2.2.2.2.2.1 (by decide), h.2.2.2.2.2.1⟩

/-- C10: The read-only status path lists only reservations that carry an
`EndDate` — reservations passing the instance-type/state filters but
lacking an end timestamp are silently excluded (the listed entries are
exactly the summaries of the end-dated survivors of the query filter) —
and `has_active_cb` is the non-emptiness of that filtered list, so the
flag can be true even when every listed reservation is `pending` with
zero available capacity, as the closed instance shows. -/
theorem C10_status_lists_only_end_dated
    (inv : List Reservation) (t : String) (az : Option String)
    (ev : CbManagerEvent) (dflt : String) (q : ApiResult (List Reservation))
    (hact : ev.action = "status" ∨ ev.action = "check") :
    (∀ s ∈ get_active_capacity_blocks (.ok inv) t az, s.end_date.isSome = true)
    ∧ get_active_capacity_blocks (.ok inv) t az
        = ((cb_manager_filter t az inv).filter fun cr => cr.endDate.isSome).map mkCbSummary
    ∧ cb_manager_handler ev dflt q
        = .status 200 ev.action (cb_manager_resolve_type ev dflt) ev.availability_zone
            (get_active_capacity_blocks q (cb_manager_resolve_type ev dflt)
              ev.availability_zone)
            (decide (0 < (get_active_capacity_blocks q (cb_manager_resolve_type ev dflt)
              ev.availability_zone).length))
    ∧ cb_manager_handler { action := "status" } "p6-b200.48xlarge"
        (.ok [ { capacityReservationId := "cr-p", state := "pending",
                 instanceType := "p6-b200.48xlarge", availabilityZone := "us-west-2a",
                 availableInstanceCount := 0, totalInstanceCount := 4,
                 startDate := some 100, endDate := some 200 },
               { capacityReservationId := "cr-q", state := "active",
                 instanceType := "p6-b200.48xlarge", availabilityZone := "us-west-2a",
                 availableInstanceCount := 3, totalInstanceCount := 4,
                 startDate := some 100, endDate := none } ])
      = .status 200 "status" "p6-b200.48xlarge" none
          [ { reservation_id := "cr-p", state := "pending",
              instance_type := "p6-b200.48xlarge", availability_zone := "us-west-2a",
              available_capacity := 0, total_capacity := 4,
              start_date := some 100, end_date := some 200 } ] true := by
  refine ⟨?_, rfl, ?_, rfl⟩
  · intro s hs
    simp only [get_active_capacity_blocks, List.mem_map, List.mem_filter] at hs
    obtain ⟨cr, ⟨_hmem, hend⟩, rfl⟩ := hs
    exact hend
  · have hc : ev.action = "check" ∨ ev.action = "status" := hact.symm
    unfold cb_manager_handler
    rw [if_pos hc]

theorem C10_status_lists_only_end_dated_witness :
    (∀ s ∈ get_active_capacity_blocks
        (.ok [ { capacityReservationId := "cr-q", state := "active",
                 instanceType := "p6-b200.48xlarge", availabilityZone := "us-west-2a",
                 availableInstanceCount := 3, totalInstanceCount := 4,
                 startDate := some 100, endDate := none } ])
        "p6-b200.48xlarge" none, s.end_date.isSome = true)
    ∧ cb_manager_handler { action := "status" } "p6-b200.48xlarge"
        (.ok [ { capacityReservationId := "cr-p", state := "pending",
                 instanceType := "p6-b200.48xlarge", availabilityZone := "us-west-2a",
                 availableInstanceCount := 0, totalInstanceCount := 4,
                 startDate := some 100, endDate := some 200 },
               { capacityReservationId := "cr-q", state := "active",
                 instanceType := "p6-b200.48xlarge", availabilityZone := "us-west-2a",
                 availableInstanceCount := 3, totalInstanceCount := 4,
                 startDate := some 100, endDate := none } ])
      = .status 200 "status" "p6-b200.48xlarge" none
          [ { reservation_id := "cr-p", state := "pending",
              instance_type := "p6-b200.48xlarge", availability_zone := "us-west-2a",
              available_capacity := 0, total_capacity := 4,
              start_date := some 100, end_date := some 200 } ] true := by
  have h := C10_status_lists_only_end_dated
    [ { capacityReservationId := "cr-q", state := "active",
        instanceType := "p6-b200.48xlarge", availabilityZone := "us-west-2a",
        availableInstanceCount := 3, totalInstanceCount := 4,
        startDate := some 100, endDate := none } ]
    "p6-b200.48xlarge" none { action := "status" } "p6-b200.48xlarge" (.ok [])
    (Or.inl rfl)
  exact ⟨h.1, h.2.2.2⟩

end CiInfra
